import Mathlib

/-!
MovingPixelsState (src/widgets/editor/moving_pixels_state.cpp)

A shallow embedding of the editor state that is active while the user
transforms a floating selection.  The state owns one `PixelsMovement`
object (the transform session) through the raw pointer `m_pixelsMovement`.

Every method of the class is a sequence of calls on collaborators (the
editor, the document, the status bar, the session, the GUI mouse module,
the `StandbyState` base class).  The embedding keeps

* the field `m_pixelsMovement` of the object, and
* the ordered log of the state-changing calls the method bodies make,

and reads the answers of the collaborators' queries from an `Env` record,
over which all theorems quantify.  `ASSERT` failures abort the run (`none`).
-/

namespace MovingPixels

/-! ## Data -/

/-- Address of a `PixelsMovement` object; `m_pixelsMovement == NULL` is `none`. -/
abbrev Ptr := Nat

/-- Modelled from the spec: the `HandleType` enumeration, whose declaration
(widgets/editor/handle_type.h) is not part of the sources.  The code names two
of its values, `NoHandle` and `MoveHandle`; every other value (corner, edge,
rotation, pivot handles) is `Other n`. -/
inductive HandleType where
  | NoHandle
  | MoveHandle
  | Other (n : Nat)
  deriving DecidableEq, Repr

/-- The integer fields of `gfx::Rect`. -/
structure Rect where
  x : Int
  y : Int
  w : Int
  h : Int
  deriving DecidableEq, Repr

/-- A C++ `double` (IEEE-754 binary64).  A finite value is
`(-1)^negative * mantissa * 2^exponent`; the results of the operations below are
in the canonical form of the format: `mantissa < 2^53`, `-1074 ≤ exponent ≤ 971`,
and `2^52 ≤ mantissa` unless `exponent = -1074` (zero and the subnormals). -/
inductive Double where
  | finite (negative : Bool) (mantissa : Nat) (exponent : Int)
  | infinite (negative : Bool)
  | nan
  deriving DecidableEq, Repr

/-- Number of binary digits of `n`, by halving at most `fuel` times. -/
def bitLengthAux : Nat → Nat → Nat
  | 0, _ => 0
  | fuel + 1, n => if n = 0 then 0 else bitLengthAux fuel (n / 2) + 1

/-- Number of binary digits of `n` (`0` for `0`). -/
def bitLength (n : Nat) : Nat :=
  bitLengthAux n n

/-- The `double` nearest to the fraction `num / den` (`den` positive) with the
given sign, ties going to the even mantissa: the rounding every `double`
operation applies to its exact result.  Magnitudes beyond the largest finite
value become infinite, those below the smallest subnormal become zero. -/
def Double.round (negative : Bool) (num den : Nat) : Double :=
  if num = 0 then .finite negative 0 (-1074)
  else
    -- 2^(k-1) < num/den < 2^(k+1)
    let k : Int := (bitLength num : Int) - (bitLength den : Int)
    let floorLog : Int :=
      if num * 2 ^ (-k).toNat < den * 2 ^ k.toNat then k - 1 else k
    -- exponent of the last mantissa bit
    let e : Int := max (floorLog - 52) (-1074)
    -- (num/den) / 2^e = n / d
    let n := num * 2 ^ (-e).toNat
    let d := den * 2 ^ e.toNat
    let q := n / d
    let r := n % d
    let m :=
      if 2 * r < d then q
      else if d < 2 * r then q + 1
      else if q % 2 = 0 then q else q + 1
    let m2 := if m = 2 ^ 53 then 2 ^ 52 else m
    let e2 := if m = 2 ^ 53 then e + 1 else e
    if 971 < e2 then .infinite negative else .finite negative m2 e2

/-- The operator `*` on `double`: the exact product, rounded. -/
def Double.mul : Double → Double → Double
  | .nan, _ => .nan
  | _, .nan => .nan
  | .infinite s, .infinite t => .infinite (xor s t)
  | .infinite s, .finite t n _ => if n = 0 then .nan else .infinite (xor s t)
  | .finite s m _, .infinite t => if m = 0 then .nan else .infinite (xor s t)
  | .finite s m e, .finite t n f =>
    Double.round (xor s t) (m * n * 2 ^ (e + f).toNat) (2 ^ (-(e + f)).toNat)

/-- The operator `/` on `double`: the exact quotient, rounded. -/
def Double.div : Double → Double → Double
  | .nan, _ => .nan
  | _, .nan => .nan
  | .infinite _, .infinite _ => .nan
  | .infinite s, .finite t _ _ => .infinite (xor s t)
  | .finite s _ _, .infinite t => .finite (xor s t) 0 (-1074)
  | .finite s m e, .finite t n f =>
    if n = 0 then
      if m = 0 then .nan else .infinite (xor s t)
    else
      Double.round (xor s t) (m * 2 ^ (e - f).toNat) (n * 2 ^ (f - e).toNat)

/-- The `double` written as the decimal literal `digits / 10^scale`. -/
def Double.ofDecimal (digits scale : Nat) : Double :=
  Double.round false digits (10 ^ scale)

/-- The `double` of a whole-number literal such as `180.0`. -/
def Double.ofNat (n : Nat) : Double :=
  Double.round false n 1

/-- Modelled from the spec: the constant `PI`, whose definition is in a header
that is not part of the sources.  The spec converts the angle π/2 to 90
degrees, so `PI` is π, as a `double`: the literal to twenty decimals. -/
def PI : Double :=
  Double.ofDecimal 314159265358979323846 20

/-- A `gfx::Transformation`: its bounds and its angle in radians. -/
structure Transformation where
  bounds : Rect
  angle : Double
  deriving DecidableEq, Repr

/-- The part of a mouse `Message` the methods read (`msg->mouse`). -/
structure Message where
  x : Int
  y : Int
  left : Bool
  right : Bool
  deriving DecidableEq, Repr

/-- A `Sprite`, as far as `setTransparentColor` looks at it. -/
structure Sprite where
  getImgType : Int
  deriving DecidableEq, Repr

/-- The global `current_editor`, as far as `setTransparentColor` looks at it:
`getSprite` is `none` for a NULL sprite. -/
structure CurrentEditor where
  getSprite : Option Sprite
  deriving DecidableEq, Repr

/-- A `Color` value, kept as an uninterpreted code. -/
abbrev Color := Nat

/-- An argument passed through the `...` of `StatusBar::setStatusText`. -/
inductive Arg where
  | int (n : Int)
  | double (d : Double)
  deriving DecidableEq, Repr

/-- The state-changing calls made by the methods of `MovingPixelsState`, each
named after the callee.  Calls on the session carry the address of the
receiving `PixelsMovement` object. -/
inductive Call where
  -- PixelsMovement
  | catchImage (p : Ptr) (x y : Int) (handle : HandleType)
  | catchImageAgain (p : Ptr) (x y : Int) (handle : HandleType)
  | dropImageTemporarily (p : Ptr)
  | dropImage (p : Ptr)
  | moveImage (p : Ptr) (x y : Int)
  | setMaskColor (p : Ptr) (color : Int)
  | deletePixelsMovement (p : Ptr)
  -- Editor
  | captureMouse
  | releaseMouse
  | invalidate
  | backToPreviousState
  | controlInfiniteScroll (msg : Message)
  | updateStatusBar
  | hideDrawingCursor
  -- Document
  | resetTransformation
  -- StatusBar
  | addListener
  | removeListener
  | showMovePixelsOptions
  | hideMovePixelsOptions
  | setStatusText (msecs : Int) (format : String) (args : List Arg)
  -- gui/system, modules/editors
  | jmouse_hide
  | jmouse_show
  | jmouse_set_cursor_MOVE
  | editors_draw_sprite_tiled (x1 y1 x2 y2 : Int)
  -- StandbyState (base class implementations)
  | StandbyState_onMouseDown (msg : Message)
  | StandbyState_onMouseMove (msg : Message)
  | StandbyState_onMouseWheel (msg : Message)
  | StandbyState_onSetCursor
  | StandbyState_onKeyDown
  | StandbyState_onKeyUp
  deriving DecidableEq, Repr

/-- Answers of the collaborators to the queries the methods make.  None of the
queried code is part of the sources, so every answer is a parameter. -/
structure Env where
  /-- Answer of `m_pixelsMovement->isDragging()` -/
  isDragging : Bool
  /-- Answer of `m_pixelsMovement->getTransformation()` -/
  getTransformation : Transformation
  /-- Bounds returned by `m_pixelsMovement->moveImage(x, y)` -/
  moveImage : Int → Int → Rect
  /-- Answer of `bounds.isEmpty()` of `gfx::Rect` -/
  rectIsEmpty : Rect → Bool
  /-- Answer of `editor->screenToEditor(xin, yin, &xout, &yout)` -/
  screenToEditor : Int → Int → Int × Int
  /-- Answer of `editor->isInsideSelection()` -/
  isInsideSelection : Bool
  /-- Whether `editor->getCustomizationDelegate()` is not NULL -/
  hasCustomizationDelegate : Bool
  /-- Answer of `customization->isCopySelectionKeyPressed()` -/
  isCopySelectionKeyPressed : Bool
  /-- Answer of `editor->getCurrentEditorTool()->getInk(0)->isSelection()` -/
  ink0IsSelection : Bool
  /-- Answer of `editor->getCurrentEditorTool()->getInk(1)->isSelection()` -/
  ink1IsSelection : Bool
  /-- Answer of `document->isMaskVisible()` -/
  isMaskVisible : Bool
  /-- Whether `decorator->getTransformHandles(editor)` is not NULL -/
  hasTransformHandles : Bool
  /-- Answer of `transfHandles->getHandleAtPoint(editor, gfx::Point(x, y), transform)` -/
  getHandleAtPoint : Int → Int → Transformation → HandleType
  /-- Answer of `jmouse_b(antique)` -/
  jmouse_b : Int → Int
  /-- Answer of `app_get_statusbar()->getTransparentColor()` -/
  getTransparentColor : Color
  /-- The global `current_editor`; `none` is NULL -/
  current_editor : Option CurrentEditor
  /-- Answer of `color_utils::color_for_image(color, imgtype)` -/
  color_for_image : Color → Int → Int
  /-- Result of `StandbyState::onMouseDown(editor, msg)` -/
  standbyOnMouseDown : Bool
  /-- Result of `StandbyState::onMouseMove(editor, msg)` -/
  standbyOnMouseMove : Bool
  /-- Result of `StandbyState::onMouseWheel(editor, msg)` -/
  standbyOnMouseWheel : Bool
  /-- Result of `StandbyState::onSetCursor(editor)` -/
  standbyOnSetCursor : Bool
  /-- Result of `StandbyState::onKeyDown(editor, msg)` -/
  standbyOnKeyDown : Bool
  /-- Result of `StandbyState::onKeyUp(editor, msg)` -/
  standbyOnKeyUp : Bool

/-- The object and the log of the calls made so far (oldest first). -/
structure World where
  m_pixelsMovement : Option Ptr
  calls : List Call
  deriving DecidableEq, Repr

/-- Method bodies: they update the world, and abort on a failed `ASSERT`. -/
abbrev Eff := StateT World Option

/-- Make a state-changing call on a collaborator. -/
def call (c : Call) : Eff Unit :=
  fun w => some ((), { w with calls := w.calls ++ [c] })

/-- The assertion `ASSERT(cond)`: a failed assertion is fatal. -/
def ASSERT (cond : Bool) : Eff Unit :=
  fun w => if cond then some ((), w) else none

/-- Read the field `m_pixelsMovement`. -/
def get_m_pixelsMovement : Eff (Option Ptr) :=
  fun w => some (w.m_pixelsMovement, w)

/-- Assign the field `m_pixelsMovement`. -/
def set_m_pixelsMovement (p : Option Ptr) : Eff Unit :=
  fun w => some ((), { w with m_pixelsMovement := p })

/-- Dereference `m_pixelsMovement` for a method call: the address of the
session, no result when the pointer is NULL. -/
def deref_m_pixelsMovement : Eff Ptr :=
  fun w => match w.m_pixelsMovement with
    | some p => some (p, w)
    | none => none

/-- The operator `delete ptr`: destroys the object, does nothing for NULL. -/
def delete (ptr : Option Ptr) : Eff Unit :=
  match ptr with
  | some p => call (.deletePixelsMovement p)
  | none => pure ()

/-- Two's-complement value of a 32-bit `int`. -/
def int32 (n : Int) : Int :=
  (n + 2147483648) % 4294967296 - 2147483648

/-! ## Methods -/

/-- Method `MovingPixelsState::dropPixels`. -/
def dropPixels : Eff Unit :=
  call .backToPreviousState

/-- Method `MovingPixelsState::getTransformation`. -/
def getTransformation (env : Env) : Eff Transformation := do
  let _ ← deref_m_pixelsMovement
  pure env.getTransformation

/-- Method `MovingPixelsState::setTransparentColor`. -/
def setTransparentColor (env : Env) (color : Color) : Eff Unit := do
  ASSERT env.current_editor.isSome
  ASSERT (← get_m_pixelsMovement).isSome
  match env.current_editor with
  | none => failure
  | some ed =>
    let sprite := ed.getSprite
    ASSERT sprite.isSome
    match sprite with
    | none => failure
    | some sprite =>
      let imgtype := sprite.getImgType
      let p ← deref_m_pixelsMovement
      call (.setMaskColor p (env.color_for_image color imgtype))

/-- Constructor `MovingPixelsState::MovingPixelsState`; it assigns the field
before anything reads it. -/
def MovingPixelsState (env : Env) (msg : Message) (pixelsMovement : Option Ptr)
    (handle : HandleType) : Eff Unit := do
  set_m_pixelsMovement pixelsMovement
  if handle ≠ .NoHandle then
    let (u, v) := env.screenToEditor msg.x msg.y
    let p ← deref_m_pixelsMovement
    call (.catchImage p u v handle)
    call .captureMouse
  -- Setup mask color
  setTransparentColor env env.getTransparentColor
  call .addListener
  call .showMovePixelsOptions

/-- Method `MovingPixelsState::~MovingPixelsState`. -/
def destructor : Eff Unit := do
  call .removeListener
  delete (← get_m_pixelsMovement)

/-- Method `MovingPixelsState::onBeforeChangeState`. -/
def onBeforeChangeState (env : Env) : Eff Bool := do
  ASSERT (← get_m_pixelsMovement).isSome
  let p ← deref_m_pixelsMovement
  -- If we are changing to another state, we've to drop the image.
  if env.isDragging then
    call (.dropImageTemporarily p)
  -- Drop pixels if the user press a button outside the selection
  call (.dropImage p)
  call .resetTransformation
  delete (← get_m_pixelsMovement)
  set_m_pixelsMovement none
  call .releaseMouse
  call .hideMovePixelsOptions
  return false

/-- Method `MovingPixelsState::onCurrentToolChange`. -/
def onCurrentToolChange (env : Env) : Eff Unit := do
  ASSERT (← get_m_pixelsMovement).isSome
  -- If the user changed the tool when he/she is moving pixels,
  -- we have to drop the pixels only if the new tool is not selection...
  if (← get_m_pixelsMovement).isSome &&
      (!env.ink0IsSelection || !env.ink1IsSelection) then
    -- We have to drop pixels
    dropPixels

/-- Method `MovingPixelsState::onMouseDown`. -/
def onMouseDown (env : Env) (msg : Message) : Eff Bool := do
  ASSERT (← get_m_pixelsMovement).isSome
  -- Transform selected pixels
  if env.isMaskVisible && env.hasTransformHandles then
    -- Get the handle covered by the mouse.
    let handle := env.getHandleAtPoint msg.x msg.y (← getTransformation env)
    if handle ≠ .NoHandle then
      -- Re-catch the image
      let (x, y) := env.screenToEditor msg.x msg.y
      let p ← deref_m_pixelsMovement
      call (.catchImageAgain p x y handle)
      call .captureMouse
      return true
  -- Start "moving pixels" loop
  if env.isInsideSelection && (msg.left || msg.right) then
    -- Re-catch the image
    let (x, y) := env.screenToEditor msg.x msg.y
    let p ← deref_m_pixelsMovement
    call (.catchImageAgain p x y .MoveHandle)
    call .captureMouse
    return true
  -- End "moving pixels" loop
  else
    -- Drop pixels (e.g. to start drawing)
    dropPixels
  -- Use StandbyState implementation
  call (.StandbyState_onMouseDown msg)
  return env.standbyOnMouseDown

/-- Method `MovingPixelsState::onMouseUp`. -/
def onMouseUp (_env : Env) (_msg : Message) : Eff Bool := do
  ASSERT (← get_m_pixelsMovement).isSome
  -- Drop the image temporarily in this location (where the user releases the mouse)
  let p ← deref_m_pixelsMovement
  call (.dropImageTemporarily p)
  -- Redraw the new pivot location.
  call .invalidate
  call .releaseMouse
  return true

/-- Method `MovingPixelsState::onMouseMove`. -/
def onMouseMove (env : Env) (msg : Message) : Eff Bool := do
  ASSERT (← get_m_pixelsMovement).isSome
  -- If there is a button pressed
  if env.isDragging then
    -- Infinite scroll
    call (.controlInfiniteScroll msg)
    -- Get the position of the mouse in the sprite
    let (x, y) := env.screenToEditor msg.x msg.y
    -- Drag the image to that position
    let p ← deref_m_pixelsMovement
    call (.moveImage p x y)
    let bounds := env.moveImage x y
    -- If "bounds" is empty is because the cel was not moved
    if !env.rectIsEmpty bounds then
      -- Redraw the extra cel in the new position
      call .jmouse_hide
      call (.editors_draw_sprite_tiled bounds.x bounds.y
              (int32 (int32 (bounds.x + bounds.w) - 1))
              (int32 (int32 (bounds.y + bounds.h) - 1)))
      call .jmouse_show
    call .updateStatusBar
    return true
  -- Use StandbyState implementation
  call (.StandbyState_onMouseMove msg)
  return env.standbyOnMouseMove

/-- Method `MovingPixelsState::onMouseWheel`. -/
def onMouseWheel (env : Env) (msg : Message) : Eff Bool := do
  ASSERT (← get_m_pixelsMovement).isSome
  -- Use StandbyState implementation
  call (.StandbyState_onMouseWheel msg)
  return env.standbyOnMouseWheel

/-- Method `MovingPixelsState::onSetCursor`. -/
def onSetCursor (env : Env) : Eff Bool := do
  ASSERT (← get_m_pixelsMovement).isSome
  -- Move selection
  if env.isDragging then
    call .hideDrawingCursor
    call .jmouse_set_cursor_MOVE
    return true
  -- Use StandbyState implementation
  call .StandbyState_onSetCursor
  return env.standbyOnSetCursor

/-- Method `MovingPixelsState::onKeyDown`. -/
def onKeyDown (env : Env) : Eff Bool := do
  ASSERT (← get_m_pixelsMovement).isSome
  if env.hasCustomizationDelegate && env.isCopySelectionKeyPressed then
    -- If the user presses the CTRL key when he is dragging pixels (but
    -- not pressing the mouse buttons).
    if env.jmouse_b 0 == 0 && (← get_m_pixelsMovement).isSome then
      -- Drop pixels (sure the user will press the mouse button to
      -- start dragging a copy).
      dropPixels
  -- Use StandbyState implementation
  call .StandbyState_onKeyDown
  return env.standbyOnKeyDown

/-- Method `MovingPixelsState::onKeyUp`. -/
def onKeyUp (env : Env) : Eff Bool := do
  ASSERT (← get_m_pixelsMovement).isSome
  -- Use StandbyState implementation
  call .StandbyState_onKeyUp
  return env.standbyOnKeyUp

/-- Method `MovingPixelsState::onUpdateStatusBar`. -/
def onUpdateStatusBar (env : Env) : Eff Bool := do
  ASSERT (← get_m_pixelsMovement).isSome
  let transform ← getTransformation env
  call (.setStatusText 100 "Pos %d %d, Size %d %d, Angle %.1f"
    [.int transform.bounds.x, .int transform.bounds.y,
      .int transform.bounds.w, .int transform.bounds.h,
      .double (Double.div (Double.mul (Double.ofNat 180) transform.angle) PI)])
  return true

/-- Method `MovingPixelsState::onChangeTransparentColor`. -/
def onChangeTransparentColor (env : Env) (color : Color) : Eff Unit :=
  setTransparentColor env color

/-! ## Lifetimes of the object -/

/-- A lifetime that ends with the destructor alone: construction with the
session at address `p`, then destruction. -/
def lifetimeDestructorOnly (env : Env) (msg : Message) (p : Ptr) (handle : HandleType) :
    Eff Unit := do
  MovingPixelsState env msg (some p) handle
  destructor

/-- A lifetime with an explicit exit: construction with the session at address
`p`, one `onBeforeChangeState`, then destruction. -/
def lifetimeWithExit (env : Env) (msg : Message) (p : Ptr) (handle : HandleType)
    (envExit : Env) : Eff Unit := do
  MovingPixelsState env msg (some p) handle
  let _ ← onBeforeChangeState envExit
  destructor

/-! ## Reading the call log -/

/-- Number of times the session object at address `p` has been destroyed. -/
def timesDestroyed (p : Ptr) (calls : List Call) : Nat :=
  calls.count (.deletePixelsMovement p)

/-- Modelled from the spec: the editor's mouse capture (`Editor::captureMouse`
and `Editor::releaseMouse` are not part of the sources), an exclusive resource
that is held from a `captureMouse` call until the next `releaseMouse` call. -/
def mouseCaptured (calls : List Call) : Bool :=
  calls.foldl (fun held c =>
    match c with
    | .captureMouse => true
    | .releaseMouse => false
    | _ => held) false

/-- Modelled from the spec: visibility of the status bar's move-pixels options
(`StatusBar::showMovePixelsOptions` and `StatusBar::hideMovePixelsOptions` are
not part of the sources): shown by the one call, hidden by the other. -/
def movePixelsOptionsShown (calls : List Call) : Bool :=
  calls.foldl (fun shown c =>
    match c with
    | .showMovePixelsOptions => true
    | .hideMovePixelsOptions => false
    | _ => shown) false

/-- The decimal digit `d`. -/
def digitChar (d : Nat) : Char :=
  match d with
  | 0 => '0'
  | 1 => '1'
  | 2 => '2'
  | 3 => '3'
  | 4 => '4'
  | 5 => '5'
  | 6 => '6'
  | 7 => '7'
  | 8 => '8'
  | _ => '9'

/-- Decimal digits of `n` in front of `acc`, by dividing at most `fuel` times. -/
def natDigitsAux : Nat → Nat → List Char → List Char
  | 0, _, acc => acc
  | fuel + 1, n, acc =>
    if n < 10 then digitChar n :: acc
    else natDigitsAux fuel (n / 10) (digitChar (n % 10) :: acc)

/-- Decimal digits of `n`. -/
def natDigits (n : Nat) : List Char :=
  natDigitsAux (n + 1) n []

/-- Modelled from the spec: the conversion `%d` of the formatted output that
`StatusBar::setStatusText` applies (not part of the sources): the decimal digits
of the integer, with a minus sign when negative. -/
def intDigits (n : Int) : List Char :=
  if n < 0 then '-' :: natDigits n.natAbs else natDigits n.natAbs

/-- Modelled from the spec: the conversion `%.Nf` of the formatted output that
`StatusBar::setStatusText` applies (not part of the sources): the value in
fixed notation with `precision` decimals, the exact value being rounded to the
nearest such decimal, ties to even; this is how π/2 radians reads `90.0`. -/
def fixedDigits (precision : Nat) : Double → List Char
  | .nan => ['n', 'a', 'n']
  | .infinite s => (if s then ['-'] else []) ++ ['i', 'n', 'f']
  | .finite s m e =>
    -- value * 10^precision = n / d
    let n := m * 10 ^ precision * 2 ^ e.toNat
    let d := 2 ^ (-e).toNat
    let q := n / d
    let r := n % d
    let u :=
      if 2 * r < d then q
      else if d < 2 * r then q + 1
      else if q % 2 = 0 then q else q + 1
    let frac := natDigits (u % 10 ^ precision)
    (if s then ['-'] else []) ++ natDigits (u / 10 ^ precision) ++
      (if precision = 0 then []
      else '.' :: (List.replicate (precision - frac.length) '0' ++ frac))

/-- Modelled from the spec: the formatted output that `StatusBar::setStatusText`
applies to its format and arguments (not part of the sources).  The conversions
`%d` and `%.Nf` (`N` one digit) consume one argument each; every other
character of the format is copied. -/
def formatText : List Char → List Arg → List Char
  | [], _ => []
  | '%' :: 'd' :: rest, .int n :: args => intDigits n ++ formatText rest args
  | '%' :: '.' :: c :: 'f' :: rest, .double d :: args =>
    fixedDigits (c.toNat - 48) d ++ formatText rest args
  | c :: rest, args => c :: formatText rest args

/-- Modelled from the spec: the text shown by the status bar after the logged
calls: the formatted text of the last `setStatusText` call, if any. -/
def statusText (calls : List Call) : Option String :=
  calls.foldl (fun text c =>
    match c with
    | .setStatusText _ format args => some (String.mk (formatText format.data args))
    | _ => text) none

/-- Whether `n` is representable as a 32-bit `int`. -/
def fitsInt32 (n : Int) : Prop :=
  -2147483648 ≤ n ∧ n ≤ 2147483647

instance (n : Int) : Decidable (fitsInt32 n) := by
  unfold fitsInt32; infer_instance

/-! ## The conditions `onMouseDown` tests -/

/-- The handle `onMouseDown` finds under the pointer (source lines 122-124). -/
def handleUnderPointer (env : Env) (msg : Message) : HandleType :=
  env.getHandleAtPoint msg.x msg.y env.getTransformation

/-- The pointer position of `msg` in canvas coordinates, as written by
`editor->screenToEditor(msg->mouse.x, msg->mouse.y, &x, &y)`. -/
def canvasPosition (env : Env) (msg : Message) : Int × Int :=
  env.screenToEditor msg.x msg.y

/-- First test of `onMouseDown` (source lines 117-126): the mask is visible,
transform handles exist and the handle under the pointer is not `NoHandle`. -/
def overTransformHandle (env : Env) (msg : Message) : Prop :=
  env.isMaskVisible = true ∧ env.hasTransformHandles = true ∧
    handleUnderPointer env msg ≠ .NoHandle

instance (env : Env) (msg : Message) : Decidable (overTransformHandle env msg) := by
  unfold overTransformHandle; infer_instance

/-- Second test of `onMouseDown` (source lines 138-139): the pointer is inside
the selection and the left or the right button is pressed. -/
def insideSelectionPressed (env : Env) (msg : Message) : Prop :=
  env.isInsideSelection = true ∧ (msg.left = true ∨ msg.right = true)

instance (env : Env) (msg : Message) : Decidable (insideSelectionPressed env msg) := by
  unfold insideSelectionPressed; infer_instance

/-- The bounds `onMouseMove` receives from `m_pixelsMovement->moveImage(x, y)`
at the canvas position of the pointer (source lines 183-186). -/
def movedBounds (env : Env) (msg : Message) : Rect :=
  env.moveImage (canvasPosition env msg).1 (canvasPosition env msg).2

/-! ## Sample collaborators -/

/-- A sample environment: the session is dragging, the pointer is inside the
selection and over no transform handle, the current tool selects with ink 0
only, the copy-selection key is down and no mouse button is pressed. -/
def sampleEnv : Env :=
  { isDragging := true
    getTransformation := ⟨⟨10, 20, 30, 40⟩, Double.ofNat 0⟩
    moveImage := fun x y => ⟨x, y, 3, 4⟩
    rectIsEmpty := fun r => decide (r.w < 1) || decide (r.h < 1)
    screenToEditor := fun x y => (x / 2, y / 2)
    isInsideSelection := true
    hasCustomizationDelegate := true
    isCopySelectionKeyPressed := true
    ink0IsSelection := true
    ink1IsSelection := false
    isMaskVisible := true
    hasTransformHandles := true
    getHandleAtPoint := fun _ _ _ => .NoHandle
    jmouse_b := fun _ => 0
    getTransparentColor := 7
    current_editor := some ⟨some ⟨1⟩⟩
    color_for_image := fun c t => c + t
    standbyOnMouseDown := false
    standbyOnMouseMove := false
    standbyOnMouseWheel := false
    standbyOnSetCursor := false
    standbyOnKeyDown := true
    standbyOnKeyUp := false }

/-- The sample environment with the pointer over a corner handle. -/
def sampleEnvOverHandle : Env :=
  { sampleEnv with getHandleAtPoint := fun _ _ _ => .Other 2 }

/-- The sample environment with the pointer outside the selection. -/
def sampleEnvOutside : Env :=
  { sampleEnv with isInsideSelection := false }

/-- The sample environment with a session that is not dragging. -/
def sampleEnvIdle : Env :=
  { sampleEnv with isDragging := false }

/-- The sample environment with a session whose `moveImage` reports that the
cel did not move (empty bounds). -/
def sampleEnvNotMoved : Env :=
  { sampleEnv with moveImage := fun x y => ⟨x, y, 0, 0⟩ }

/-- The angle π/2 in radians as a `double`: `PI / 2.0`. -/
def halfPI : Double :=
  Double.div PI (Double.ofNat 2)

/-- The sample environment with a session whose current transformation is
`{x=10, y=20, w=30, h=40, angle=π/2}`. -/
def sampleEnvQuarterTurn : Env :=
  { sampleEnv with getTransformation := ⟨⟨10, 20, 30, 40⟩, halfPI⟩ }

/-- A left-button mouse message at screen position (4, 6). -/
def sampleMsg : Message :=
  ⟨4, 6, true, false⟩

/-! ## What one run of each method does -/

theorem int32_of_fits (n : Int) (h : fitsInt32 n) : int32 n = n := by
  unfold fitsInt32 at h
  unfold int32
  omega

theorem run_onBeforeChangeState (env : Env) (p : Ptr) (cs : List Call) :
    (onBeforeChangeState env).run ⟨some p, cs⟩ =
      some (false, ⟨none,
        cs ++ (if env.isDragging = true then [Call.dropImageTemporarily p] else []) ++
          [.dropImage p, .resetTransformation, .deletePixelsMovement p, .releaseMouse,
            .hideMovePixelsOptions]⟩) := by
  cases h : env.isDragging <;>
  simp [onBeforeChangeState, h, ASSERT, deref_m_pixelsMovement, get_m_pixelsMovement, call,
    delete, set_m_pixelsMovement, StateT.run, bind, StateT.bind, pure, StateT.pure]

theorem run_destructor (ptr : Option Ptr) (cs : List Call) :
    destructor.run ⟨ptr, cs⟩ =
      some ((), ⟨ptr, cs ++ [.removeListener] ++
        (match ptr with
          | some p => [Call.deletePixelsMovement p]
          | none => [])⟩) := by
  cases ptr <;>
  simp [destructor, get_m_pixelsMovement, call, delete, StateT.run, bind, StateT.bind, pure,
    StateT.pure]

theorem run_constructor (env : Env) (msg : Message) (p : Ptr) (handle : HandleType)
    (old : Option Ptr) (cs : List Call) (ed : CurrentEditor) (sprite : Sprite)
    (hed : env.current_editor = some ed) (hsprite : ed.getSprite = some sprite) :
    (MovingPixelsState env msg (some p) handle).run ⟨old, cs⟩ =
      some ((), ⟨some p,
        cs ++ (if handle ≠ .NoHandle then
                [Call.catchImage p (env.screenToEditor msg.x msg.y).1
                  (env.screenToEditor msg.x msg.y).2 handle, .captureMouse]
              else []) ++
          [.setMaskColor p (env.color_for_image env.getTransparentColor sprite.getImgType),
            .addListener, .showMovePixelsOptions]⟩) := by
  by_cases hh : handle = .NoHandle <;>
  simp [MovingPixelsState, setTransparentColor, hh, hed, hsprite, ASSERT, deref_m_pixelsMovement,
    get_m_pixelsMovement, call, set_m_pixelsMovement, StateT.run, bind, StateT.bind, pure,
    StateT.pure]

theorem run_onCurrentToolChange (env : Env) (p : Ptr) (cs : List Call) :
    (onCurrentToolChange env).run ⟨some p, cs⟩ =
      some ((), ⟨some p,
        cs ++ (if env.ink0IsSelection = true ∧ env.ink1IsSelection = true then []
              else [Call.backToPreviousState])⟩) := by
  cases h0 : env.ink0IsSelection <;> cases h1 : env.ink1IsSelection <;>
  simp [onCurrentToolChange, dropPixels, h0, h1, ASSERT, get_m_pixelsMovement, call, StateT.run,
    bind, StateT.bind, pure, StateT.pure]

theorem run_onMouseDown (env : Env) (msg : Message) (p : Ptr) (cs : List Call) :
    (onMouseDown env msg).run ⟨some p, cs⟩ =
      if overTransformHandle env msg then
        some (true, ⟨some p,
          cs ++ [.catchImageAgain p (canvasPosition env msg).1 (canvasPosition env msg).2
                  (handleUnderPointer env msg), .captureMouse]⟩)
      else if insideSelectionPressed env msg then
        some (true, ⟨some p,
          cs ++ [.catchImageAgain p (canvasPosition env msg).1 (canvasPosition env msg).2
                  .MoveHandle, .captureMouse]⟩)
      else
        some (env.standbyOnMouseDown, ⟨some p,
          cs ++ [.backToPreviousState, .StandbyState_onMouseDown msg]⟩) := by
  by_cases hh : env.getHandleAtPoint msg.x msg.y env.getTransformation = .NoHandle <;>
  cases h1 : env.isMaskVisible <;> cases h2 : env.hasTransformHandles <;>
  cases h3 : env.isInsideSelection <;> cases h4 : msg.left <;> cases h5 : msg.right <;>
  simp [onMouseDown, getTransformation, dropPixels, overTransformHandle, insideSelectionPressed,
    canvasPosition, handleUnderPointer, hh, h1, h2, h3, h4, h5, ASSERT, deref_m_pixelsMovement,
    get_m_pixelsMovement, call, StateT.run, bind, StateT.bind, pure, StateT.pure]

theorem run_onMouseUp (env : Env) (msg : Message) (p : Ptr) (cs : List Call) :
    (onMouseUp env msg).run ⟨some p, cs⟩ =
      some (true, ⟨some p, cs ++ [.dropImageTemporarily p, .invalidate, .releaseMouse]⟩) := by
  simp [onMouseUp, ASSERT, deref_m_pixelsMovement, get_m_pixelsMovement, call, StateT.run, bind,
    StateT.bind, pure, StateT.pure]

theorem run_onMouseMove (env : Env) (msg : Message) (p : Ptr) (cs : List Call) :
    (onMouseMove env msg).run ⟨some p, cs⟩ =
      if env.isDragging = true then
        some (true, ⟨some p,
          cs ++ [.controlInfiniteScroll msg,
                .moveImage p (canvasPosition env msg).1 (canvasPosition env msg).2] ++
            (if env.rectIsEmpty (movedBounds env msg) = true then []
            else
              [Call.jmouse_hide,
                .editors_draw_sprite_tiled (movedBounds env msg).x (movedBounds env msg).y
                  (int32 (int32 ((movedBounds env msg).x + (movedBounds env msg).w) - 1))
                  (int32 (int32 ((movedBounds env msg).y + (movedBounds env msg).h) - 1)),
                .jmouse_show]) ++
            [.updateStatusBar]⟩)
      else
        some (env.standbyOnMouseMove, ⟨some p, cs ++ [.StandbyState_onMouseMove msg]⟩) := by
  cases h : env.isDragging <;>
  cases he : env.rectIsEmpty (env.moveImage (env.screenToEditor msg.x msg.y).1
    (env.screenToEditor msg.x msg.y).2) <;>
  simp [onMouseMove, movedBounds, canvasPosition, h, he, ASSERT, deref_m_pixelsMovement,
    get_m_pixelsMovement, call, StateT.run, bind, StateT.bind, pure, StateT.pure]

theorem run_onKeyDown (env : Env) (p : Ptr) (cs : List Call) :
    (onKeyDown env).run ⟨some p, cs⟩ =
      some (env.standbyOnKeyDown, ⟨some p,
        cs ++ (if env.hasCustomizationDelegate = true ∧ env.isCopySelectionKeyPressed = true ∧
                  env.jmouse_b 0 = 0 then [Call.backToPreviousState] else []) ++
          [.StandbyState_onKeyDown]⟩) := by
  by_cases hb : env.jmouse_b 0 = 0 <;>
  cases h1 : env.hasCustomizationDelegate <;> cases h2 : env.isCopySelectionKeyPressed <;>
  simp [onKeyDown, dropPixels, hb, h1, h2, ASSERT, get_m_pixelsMovement, call, StateT.run, bind,
    StateT.bind, pure, StateT.pure]

theorem run_lifetimeDestructorOnly (env : Env) (msg : Message) (p : Ptr) (handle : HandleType)
    (old : Option Ptr) (cs : List Call) (ed : CurrentEditor) (sprite : Sprite)
    (hed : env.current_editor = some ed) (hsprite : ed.getSprite = some sprite) :
    (lifetimeDestructorOnly env msg p handle).run ⟨old, cs⟩ =
      some ((), ⟨some p,
        cs ++ (if handle ≠ .NoHandle then
                [Call.catchImage p (env.screenToEditor msg.x msg.y).1
                  (env.screenToEditor msg.x msg.y).2 handle, .captureMouse]
              else []) ++
          [.setMaskColor p (env.color_for_image env.getTransparentColor sprite.getImgType),
            .addListener, .showMovePixelsOptions] ++
          [.removeListener] ++ [.deletePixelsMovement p]⟩) := by
  simp only [lifetimeDestructorOnly, StateT.run_bind,
    run_constructor env msg p handle old cs ed sprite hed hsprite, run_destructor]
  rfl

theorem run_lifetimeWithExit (env envExit : Env) (msg : Message) (p : Ptr)
    (handle : HandleType) (old : Option Ptr) (cs : List Call) (ed : CurrentEditor)
    (sprite : Sprite) (hed : env.current_editor = some ed)
    (hsprite : ed.getSprite = some sprite) :
    (lifetimeWithExit env msg p handle envExit).run ⟨old, cs⟩ =
      some ((), ⟨none,
        cs ++ (if handle ≠ .NoHandle then
                [Call.catchImage p (env.screenToEditor msg.x msg.y).1
                  (env.screenToEditor msg.x msg.y).2 handle, .captureMouse]
              else []) ++
          [.setMaskColor p (env.color_for_image env.getTransparentColor sprite.getImgType),
            .addListener, .showMovePixelsOptions] ++
          (if envExit.isDragging = true then [Call.dropImageTemporarily p] else []) ++
          [.dropImage p, .resetTransformation, .deletePixelsMovement p, .releaseMouse,
            .hideMovePixelsOptions] ++
          [.removeListener]⟩) := by
  simp [lifetimeWithExit, StateT.run_bind,
    run_constructor env msg p handle old cs ed sprite hed hsprite, run_onBeforeChangeState,
    run_destructor]

/-! ## Exit and ownership of the session -/

/-- C1: for every state with a non-null session, whatever the session's drag
state and whatever calls came before (mouse captured or not),
`onBeforeChangeState` completes, returns `false`, leaves `m_pixelsMovement`
NULL, leaves the mouse capture released and the move-pixels options hidden; its
last three calls destroy the session, release the mouse and hide the options. -/
theorem onBeforeChangeState_tears_down (env : Env) (p : Ptr) (cs : List Call) :
    ∃ w : World, (onBeforeChangeState env).run ⟨some p, cs⟩ = some (false, w) ∧
      w.m_pixelsMovement = none ∧
      mouseCaptured w.calls = false ∧
      movePixelsOptionsShown w.calls = false ∧
      w.calls = cs ++ (if env.isDragging = true then [Call.dropImageTemporarily p] else []) ++
        [.dropImage p, .resetTransformation, .deletePixelsMovement p, .releaseMouse,
          .hideMovePixelsOptions] := by
  refine ⟨_, run_onBeforeChangeState env p cs, rfl, ?_, ?_, rfl⟩ <;>
  simp [mouseCaptured, movePixelsOptionsShown, List.foldl_append]

/-- C2: in both lifetimes of a state constructed with the session at `p` (the
destructor alone, or one `onBeforeChangeState` and then the destructor), the
run completes and the session is destroyed exactly once more than before; after
the explicit exit the owning pointer is NULL, and the destructor run on a NULL
pointer destroys nothing.  The hypotheses are the assertions of
`setTransparentColor`, which the constructor calls. -/
theorem session_destroyed_exactly_once (env envExit : Env) (msg : Message) (p : Ptr)
    (handle : HandleType) (old : Option Ptr) (cs : List Call) (ed : CurrentEditor)
    (sprite : Sprite) (hed : env.current_editor = some ed)
    (hsprite : ed.getSprite = some sprite) :
    (∃ w : World, (lifetimeDestructorOnly env msg p handle).run ⟨old, cs⟩ = some ((), w) ∧
      timesDestroyed p w.calls = timesDestroyed p cs + 1) ∧
    (∃ w : World, (lifetimeWithExit env msg p handle envExit).run ⟨old, cs⟩ = some ((), w) ∧
      timesDestroyed p w.calls = timesDestroyed p cs + 1 ∧ w.m_pixelsMovement = none) ∧
    (∀ q : Ptr, ∃ w : World, destructor.run ⟨none, cs⟩ = some ((), w) ∧
      timesDestroyed q w.calls = timesDestroyed q cs) := by
  refine ⟨?_, ?_, ?_⟩
  · refine ⟨_, run_lifetimeDestructorOnly env msg p handle old cs ed sprite hed hsprite, ?_⟩
    by_cases hh : handle = .NoHandle <;>
    simp [timesDestroyed, hh, List.count_append, List.count_cons]
  · refine ⟨_, run_lifetimeWithExit env envExit msg p handle old cs ed sprite hed hsprite,
      ?_, rfl⟩
    by_cases hh : handle = .NoHandle <;> cases hd : envExit.isDragging <;>
    simp [timesDestroyed, hh, hd, List.count_append, List.count_cons]
  · intro q
    refine ⟨_, run_destructor none cs, ?_⟩
    simp [timesDestroyed, List.count_append, List.count_cons]

/-- Witness of C2 on the sample environment, a move handle and an empty log. -/
theorem session_destroyed_exactly_once_witness :
    (∃ w : World,
      (lifetimeDestructorOnly sampleEnv sampleMsg 5 .MoveHandle).run ⟨none, []⟩ = some ((), w) ∧
      timesDestroyed 5 w.calls = timesDestroyed 5 [] + 1) ∧
    (∃ w : World,
      (lifetimeWithExit sampleEnv sampleMsg 5 .MoveHandle sampleEnvIdle).run ⟨none, []⟩ =
        some ((), w) ∧
      timesDestroyed 5 w.calls = timesDestroyed 5 [] + 1 ∧ w.m_pixelsMovement = none) ∧
    (∀ q : Ptr, ∃ w : World, destructor.run ⟨none, []⟩ = some ((), w) ∧
      timesDestroyed q w.calls = timesDestroyed q []) :=
  session_destroyed_exactly_once sampleEnv sampleEnvIdle sampleMsg 5 .MoveHandle none []
    ⟨some ⟨1⟩⟩ ⟨1⟩ rfl rfl

/-! ## Tool change -/

/-- C3, counterexample: the sample tool has a selection ink on button 0 (and a
non-selection ink on button 1), so it is a selection tool in the sense of the
claim, and `onCurrentToolChange` still requests exit. -/
theorem onCurrentToolChange_exits_with_one_selection_ink :
    (sampleEnv.ink0IsSelection = true ∨ sampleEnv.ink1IsSelection = true) ∧
    (onCurrentToolChange sampleEnv).run ⟨some 5, []⟩ =
      some ((), ⟨some 5, [.backToPreviousState]⟩) := by
  decide

/-- C3, amended: for every state with a non-null session and every current
tool, `onCurrentToolChange` completes, keeps the session, and makes no call
when both inks of the tool (ink 0 and ink 1) are selection inks, and exactly one
call, `backToPreviousState`, otherwise. -/
theorem onCurrentToolChange_exit_unless_both_inks_select (env : Env) (p : Ptr)
    (cs : List Call) :
    (onCurrentToolChange env).run ⟨some p, cs⟩ =
      some ((), ⟨some p,
        cs ++ (if env.ink0IsSelection = true ∧ env.ink1IsSelection = true then []
              else [Call.backToPreviousState])⟩) :=
  run_onCurrentToolChange env p cs

/-! ## Mouse buttons -/

/-- C4: on a state with a non-null session `onMouseDown` completes with exactly
one of three outcomes.  Over a transform handle: `catchImageAgain` at the canvas
position with that handle, then `captureMouse`, result `true`.  Otherwise,
inside the selection with a button pressed: `catchImageAgain` at the canvas
position with `MoveHandle`, then `captureMouse`, result `true`.  Otherwise:
`backToPreviousState`, then `StandbyState::onMouseDown`, whose result is
returned.  The session pointer is unchanged in all three. -/
theorem onMouseDown_three_outcomes (env : Env) (msg : Message) (p : Ptr) (cs : List Call) :
    (overTransformHandle env msg →
      (onMouseDown env msg).run ⟨some p, cs⟩ =
        some (true, ⟨some p,
          cs ++ [.catchImageAgain p (canvasPosition env msg).1 (canvasPosition env msg).2
                  (handleUnderPointer env msg), .captureMouse]⟩)) ∧
    (¬ overTransformHandle env msg → insideSelectionPressed env msg →
      (onMouseDown env msg).run ⟨some p, cs⟩ =
        some (true, ⟨some p,
          cs ++ [.catchImageAgain p (canvasPosition env msg).1 (canvasPosition env msg).2
                  .MoveHandle, .captureMouse]⟩)) ∧
    (¬ overTransformHandle env msg → ¬ insideSelectionPressed env msg →
      (onMouseDown env msg).run ⟨some p, cs⟩ =
        some (env.standbyOnMouseDown, ⟨some p,
          cs ++ [.backToPreviousState, .StandbyState_onMouseDown msg]⟩)) := by
  refine ⟨?_, ?_, ?_⟩
  · intro h
    rw [run_onMouseDown, if_pos h]
  · intro h1 h2
    rw [run_onMouseDown, if_neg h1, if_pos h2]
  · intro h1 h2
    rw [run_onMouseDown, if_neg h1, if_neg h2]

/-- Witness of C4: the three outcomes on the sample environment with the
pointer over a corner handle, inside the selection, and outside it. -/
theorem onMouseDown_three_outcomes_witness :
    (overTransformHandle sampleEnvOverHandle sampleMsg ∧
      (onMouseDown sampleEnvOverHandle sampleMsg).run ⟨some 5, []⟩ =
        some (true, ⟨some 5, [.catchImageAgain 5 2 3 (.Other 2), .captureMouse]⟩)) ∧
    (¬ overTransformHandle sampleEnv sampleMsg ∧ insideSelectionPressed sampleEnv sampleMsg ∧
      (onMouseDown sampleEnv sampleMsg).run ⟨some 5, []⟩ =
        some (true, ⟨some 5, [.catchImageAgain 5 2 3 .MoveHandle, .captureMouse]⟩)) ∧
    (¬ overTransformHandle sampleEnvOutside sampleMsg ∧
      ¬ insideSelectionPressed sampleEnvOutside sampleMsg ∧
      (onMouseDown sampleEnvOutside sampleMsg).run ⟨some 5, []⟩ =
        some (false, ⟨some 5, [.backToPreviousState, .StandbyState_onMouseDown sampleMsg]⟩)) :=
  ⟨⟨by decide,
      (onMouseDown_three_outcomes sampleEnvOverHandle sampleMsg 5 []).1 (by decide)⟩,
    ⟨by decide, by decide,
      (onMouseDown_three_outcomes sampleEnv sampleMsg 5 []).2.1 (by decide) (by decide)⟩,
    ⟨by decide, by decide,
      (onMouseDown_three_outcomes sampleEnvOutside sampleMsg 5 []).2.2 (by decide) (by decide)⟩⟩

/-- C5, counterexample: the sample session is dragging and the left button goes
down inside the selection; `onMouseDown` makes two calls, `catchImageAgain` and
`captureMouse`, and `dropImageTemporarily` is not among them. -/
theorem onMouseDown_redrag_without_commit :
    sampleEnv.isDragging = true ∧ insideSelectionPressed sampleEnv sampleMsg ∧
    (onMouseDown sampleEnv sampleMsg).run ⟨some 5, []⟩ =
      some (true, ⟨some 5, [.catchImageAgain 5 2 3 .MoveHandle, .captureMouse]⟩) ∧
    Call.dropImageTemporarily 5 ∉ [Call.catchImageAgain 5 2 3 .MoveHandle, .captureMouse] := by
  decide

/-- C5, amended: for every mouse-down inside the selection with a button
pressed, received while the session is dragging, `onMouseDown` completes with
result `true` and makes exactly two calls: `catchImageAgain` on the session the
state already owns (with the handle under the pointer when there is one, with
`MoveHandle` otherwise), then `captureMouse`.  It does not call
`dropImageTemporarily`, and `m_pixelsMovement` is the same pointer afterwards. -/
theorem onMouseDown_redrag_recatches_same_session (env : Env) (msg : Message) (p : Ptr)
    (cs : List Call) (_hdrag : env.isDragging = true)
    (hinside : insideSelectionPressed env msg) :
    (onMouseDown env msg).run ⟨some p, cs⟩ =
      some (true, ⟨some p,
        cs ++ [.catchImageAgain p (canvasPosition env msg).1 (canvasPosition env msg).2
                (if overTransformHandle env msg then handleUnderPointer env msg
                  else .MoveHandle),
              .captureMouse]⟩) := by
  by_cases h : overTransformHandle env msg
  · rw [run_onMouseDown, if_pos h, if_pos h]
  · rw [run_onMouseDown, if_neg h, if_pos hinside, if_neg h]

/-- Witness of C5 (amended) on the sample environment. -/
theorem onMouseDown_redrag_recatches_same_session_witness :
    sampleEnv.isDragging = true ∧ insideSelectionPressed sampleEnv sampleMsg ∧
    (onMouseDown sampleEnv sampleMsg).run ⟨some 5, [.captureMouse]⟩ =
      some (true, ⟨some 5,
        [.captureMouse] ++ [.catchImageAgain 5 (canvasPosition sampleEnv sampleMsg).1
                (canvasPosition sampleEnv sampleMsg).2
                (if overTransformHandle sampleEnv sampleMsg then
                  handleUnderPointer sampleEnv sampleMsg
                  else .MoveHandle),
              .captureMouse]⟩) :=
  ⟨rfl, by decide,
    onMouseDown_redrag_recatches_same_session sampleEnv sampleMsg 5 [.captureMouse] rfl
      (by decide)⟩

/-- C7: for every mouse-up on a state with a non-null session, dragging or
not, `onMouseUp` completes with result `true`, keeps the session, and makes
exactly three calls in this order: `dropImageTemporarily` on the session,
`invalidate`, `releaseMouse`; so it neither delegates to `StandbyState` nor
requests exit, and the mouse capture is released afterwards. -/
theorem onMouseUp_drops_invalidates_releases (env : Env) (msg : Message) (p : Ptr)
    (cs : List Call) :
    ∃ w : World, (onMouseUp env msg).run ⟨some p, cs⟩ = some (true, w) ∧
      w.m_pixelsMovement = some p ∧
      w.calls = cs ++ [.dropImageTemporarily p, .invalidate, .releaseMouse] ∧
      Call.backToPreviousState ∉ [Call.dropImageTemporarily p, .invalidate, .releaseMouse] ∧
      mouseCaptured w.calls = false := by
  refine ⟨_, run_onMouseUp env msg p cs, rfl, rfl, ?_, ?_⟩
  · simp
  · simp [mouseCaptured, List.foldl_append]

/-! ## Construction -/

/-- C6: constructed with a session at `p` and a handle other than `NoHandle`,
the constructor calls `catchImage` on the session at the canvas position of the
event with that handle, then `captureMouse`; constructed with `NoHandle` it
makes neither call.  In both cases it then sets the mask colour of the session,
adds itself as listener of the status bar and shows the move-pixels options.
The hypotheses are the assertions of `setTransparentColor`: `current_editor`
and its sprite are not NULL. -/
theorem constructor_catches_and_registers (env : Env) (msg : Message) (p : Ptr)
    (handle : HandleType) (old : Option Ptr) (cs : List Call) (ed : CurrentEditor)
    (sprite : Sprite) (hed : env.current_editor = some ed)
    (hsprite : ed.getSprite = some sprite) :
    (MovingPixelsState env msg (some p) handle).run ⟨old, cs⟩ =
      some ((), ⟨some p,
        cs ++ (if handle ≠ .NoHandle then
                [Call.catchImage p (canvasPosition env msg).1 (canvasPosition env msg).2 handle,
                  .captureMouse]
              else []) ++
          [.setMaskColor p (env.color_for_image env.getTransparentColor sprite.getImgType),
            .addListener, .showMovePixelsOptions]⟩) :=
  run_constructor env msg p handle old cs ed sprite hed hsprite

/-- Witness of C6: the sample environment, once with a corner handle and once
with `NoHandle`. -/
theorem constructor_catches_and_registers_witness :
    sampleEnv.current_editor = some ⟨some ⟨1⟩⟩ ∧
    (MovingPixelsState sampleEnv sampleMsg (some 5) (.Other 2)).run ⟨none, []⟩ =
      some ((), ⟨some 5,
        [.catchImage 5 2 3 (.Other 2), .captureMouse, .setMaskColor 5 8, .addListener,
          .showMovePixelsOptions]⟩) ∧
    (MovingPixelsState sampleEnv sampleMsg (some 5) .NoHandle).run ⟨none, []⟩ =
      some ((), ⟨some 5, [.setMaskColor 5 8, .addListener, .showMovePixelsOptions]⟩) :=
  ⟨rfl,
    constructor_catches_and_registers sampleEnv sampleMsg 5 (.Other 2) none [] ⟨some ⟨1⟩⟩ ⟨1⟩
      rfl rfl,
    constructor_catches_and_registers sampleEnv sampleMsg 5 .NoHandle none [] ⟨some ⟨1⟩⟩ ⟨1⟩
      rfl rfl⟩

/-! ## Mouse movement -/

/-- C8: on a state with a non-null session `onMouseMove` completes and keeps
the session.  While the session is dragging it calls `controlInfiniteScroll`,
then `moveImage` at the canvas position of the pointer; if and only if the
returned bounds are not empty it then calls `jmouse_hide`,
`editors_draw_sprite_tiled` on the rectangle from `(x, y)` to
`(x+w-1, y+h-1)` (computed in `int`), and `jmouse_show`; it ends with
`updateStatusBar` and returns `true` without delegating.  When the two sums fit
an `int` the far corner is exactly `(x+w-1, y+h-1)`.  While the session is not
dragging the only call is `StandbyState::onMouseMove`, whose result is
returned. -/
theorem onMouseMove_moves_and_redraws (env : Env) (msg : Message) (p : Ptr) (cs : List Call) :
    (env.isDragging = true →
      (onMouseMove env msg).run ⟨some p, cs⟩ =
        some (true, ⟨some p,
          cs ++ [.controlInfiniteScroll msg,
                .moveImage p (canvasPosition env msg).1 (canvasPosition env msg).2] ++
            (if env.rectIsEmpty (movedBounds env msg) = true then []
            else
              [Call.jmouse_hide,
                .editors_draw_sprite_tiled (movedBounds env msg).x (movedBounds env msg).y
                  (int32 (int32 ((movedBounds env msg).x + (movedBounds env msg).w) - 1))
                  (int32 (int32 ((movedBounds env msg).y + (movedBounds env msg).h) - 1)),
                .jmouse_show]) ++
            [.updateStatusBar]⟩)) ∧
    (env.isDragging = true →
      fitsInt32 ((movedBounds env msg).x + (movedBounds env msg).w) →
      fitsInt32 ((movedBounds env msg).x + (movedBounds env msg).w - 1) →
      fitsInt32 ((movedBounds env msg).y + (movedBounds env msg).h) →
      fitsInt32 ((movedBounds env msg).y + (movedBounds env msg).h - 1) →
      (onMouseMove env msg).run ⟨some p, cs⟩ =
        some (true, ⟨some p,
          cs ++ [.controlInfiniteScroll msg,
                .moveImage p (canvasPosition env msg).1 (canvasPosition env msg).2] ++
            (if env.rectIsEmpty (movedBounds env msg) = true then []
            else
              [Call.jmouse_hide,
                .editors_draw_sprite_tiled (movedBounds env msg).x (movedBounds env msg).y
                  ((movedBounds env msg).x + (movedBounds env msg).w - 1)
                  ((movedBounds env msg).y + (movedBounds env msg).h - 1),
                .jmouse_show]) ++
            [.updateStatusBar]⟩)) ∧
    (env.isDragging = false →
      (onMouseMove env msg).run ⟨some p, cs⟩ =
        some (env.standbyOnMouseMove, ⟨some p, cs ++ [.StandbyState_onMouseMove msg]⟩)) := by
  refine ⟨?_, ?_, ?_⟩
  · intro hd
    rw [run_onMouseMove, if_pos hd]
  · intro hd hx hx1 hy hy1
    rw [run_onMouseMove, if_pos hd, int32_of_fits _ hx, int32_of_fits _ hx1, int32_of_fits _ hy,
      int32_of_fits _ hy1]
  · intro hd
    rw [run_onMouseMove, if_neg (by simp [hd])]

/-- Witness of C8: a drag that moves the cel, a drag that does not, and a
pointer move without a drag, on the sample environments. -/
theorem onMouseMove_moves_and_redraws_witness :
    (sampleEnv.isDragging = true ∧ sampleEnv.rectIsEmpty (movedBounds sampleEnv sampleMsg) = false ∧
      (onMouseMove sampleEnv sampleMsg).run ⟨some 5, []⟩ =
        some (true, ⟨some 5,
          [.controlInfiniteScroll sampleMsg, .moveImage 5 2 3, .jmouse_hide,
            .editors_draw_sprite_tiled 2 3 4 6, .jmouse_show, .updateStatusBar]⟩)) ∧
    (sampleEnvNotMoved.isDragging = true ∧
      sampleEnvNotMoved.rectIsEmpty (movedBounds sampleEnvNotMoved sampleMsg) = true ∧
      (onMouseMove sampleEnvNotMoved sampleMsg).run ⟨some 5, []⟩ =
        some (true, ⟨some 5,
          [.controlInfiniteScroll sampleMsg, .moveImage 5 2 3, .updateStatusBar]⟩)) ∧
    (sampleEnvIdle.isDragging = false ∧
      (onMouseMove sampleEnvIdle sampleMsg).run ⟨some 5, []⟩ =
        some (false, ⟨some 5, [.StandbyState_onMouseMove sampleMsg]⟩)) :=
  ⟨⟨rfl, by decide,
      (onMouseMove_moves_and_redraws sampleEnv sampleMsg 5 []).2.1 rfl (by decide) (by decide)
        (by decide) (by decide)⟩,
    ⟨rfl, by decide,
      (onMouseMove_moves_and_redraws sampleEnvNotMoved sampleMsg 5 []).2.1 rfl (by decide)
        (by decide) (by decide) (by decide)⟩,
    ⟨rfl, (onMouseMove_moves_and_redraws sampleEnvIdle sampleMsg 5 []).2.2 rfl⟩⟩

/-! ## Keyboard -/

/-- C9: for every key-down on a state with a non-null session, `onKeyDown`
completes, keeps the session, and requests exit (`backToPreviousState`) exactly
when the editor has a customization delegate, the delegate reports the
copy-selection key pressed, and `jmouse_b(0)` is zero; in every case its last
call is `StandbyState::onKeyDown`, whose result it returns. -/
theorem onKeyDown_exit_iff_copy_key_and_no_button (env : Env) (p : Ptr) (cs : List Call) :
    (onKeyDown env).run ⟨some p, cs⟩ =
      some (env.standbyOnKeyDown, ⟨some p,
        cs ++ (if env.hasCustomizationDelegate = true ∧ env.isCopySelectionKeyPressed = true ∧
                  env.jmouse_b 0 = 0 then [Call.backToPreviousState] else []) ++
          [.StandbyState_onKeyDown]⟩) :=
  run_onKeyDown env p cs

/-! ## Status bar text -/

set_option maxRecDepth 100000

theorem run_onUpdateStatusBar (env : Env) (p : Ptr) (cs : List Call) :
    (onUpdateStatusBar env).run ⟨some p, cs⟩ =
      some (true, ⟨some p,
        cs ++ [.setStatusText 100 "Pos %d %d, Size %d %d, Angle %.1f"
                [.int env.getTransformation.bounds.x, .int env.getTransformation.bounds.y,
                  .int env.getTransformation.bounds.w, .int env.getTransformation.bounds.h,
                  .double (Double.div (Double.mul (Double.ofNat 180)
                    env.getTransformation.angle) PI)]]⟩) := by
  simp [onUpdateStatusBar, getTransformation, ASSERT, deref_m_pixelsMovement,
    get_m_pixelsMovement, call, StateT.run, bind, StateT.bind, pure, StateT.pure]

theorem statusText_append_setStatusText (cs : List Call) (msecs : Int) (format : String)
    (args : List Arg) :
    statusText (cs ++ [.setStatusText msecs format args]) =
      some (String.mk (formatText format.data args)) := by
  simp [statusText, List.foldl_append]

theorem PI_value : PI = .finite false 7074237752028440 (-51) := by
  decide

theorem halfPI_value : halfPI = .finite false 7074237752028440 (-52) := by
  decide

theorem halfPI_times_180 :
    Double.mul (Double.ofNat 180) halfPI = .finite false 4974073419394997 (-44) := by
  decide

theorem ninety_value : Double.ofNat 90 = .finite false 6333186975989760 (-46) := by
  decide

theorem halfPI_in_degrees :
    Double.div (Double.mul (Double.ofNat 180) halfPI) PI = Double.ofNat 90 := by
  decide

theorem quarterTurn_text :
    String.mk (formatText "Pos %d %d, Size %d %d, Angle %.1f".data
      [.int 10, .int 20, .int 30, .int 40, .double (Double.ofNat 90)]) =
      "Pos 10 20, Size 30 40, Angle 90.0" := by
  decide

/-- C10: for every current transformation of a state with a non-null session,
`onUpdateStatusBar` completes, returns `true` and makes one call,
`setStatusText` with the format `"Pos %d %d, Size %d %d, Angle %.1f"` and the
arguments `bounds.x`, `bounds.y`, `bounds.w`, `bounds.h` and `180.0*angle/PI`
computed in `double`.  For the transformation `{x=10, y=20, w=30, h=40,
angle=π/2}` the angle argument is the `double` 90 and the status text reads
`"Pos 10 20, Size 30 40, Angle 90.0"`. -/
theorem onUpdateStatusBar_formats_transformation (env : Env) (p : Ptr) (cs : List Call) :
    (onUpdateStatusBar env).run ⟨some p, cs⟩ =
      some (true, ⟨some p,
        cs ++ [.setStatusText 100 "Pos %d %d, Size %d %d, Angle %.1f"
                [.int env.getTransformation.bounds.x, .int env.getTransformation.bounds.y,
                  .int env.getTransformation.bounds.w, .int env.getTransformation.bounds.h,
                  .double (Double.div (Double.mul (Double.ofNat 180)
                    env.getTransformation.angle) PI)]]⟩) ∧
    (env.getTransformation = ⟨⟨10, 20, 30, 40⟩, halfPI⟩ →
      Double.div (Double.mul (Double.ofNat 180) env.getTransformation.angle) PI =
        Double.ofNat 90 ∧
      ∃ w : World, (onUpdateStatusBar env).run ⟨some p, cs⟩ = some (true, w) ∧
        w.calls = cs ++ [.setStatusText 100 "Pos %d %d, Size %d %d, Angle %.1f"
          [.int 10, .int 20, .int 30, .int 40, .double (Double.ofNat 90)]] ∧
        statusText w.calls = some "Pos 10 20, Size 30 40, Angle 90.0") := by
  refine ⟨run_onUpdateStatusBar env p cs, ?_⟩
  intro h
  have hangle : Double.div (Double.mul (Double.ofNat 180) env.getTransformation.angle) PI =
      Double.ofNat 90 := by
    rw [h]
    exact halfPI_in_degrees
  refine ⟨hangle, _, run_onUpdateStatusBar env p cs, ?_, ?_⟩
  · simp only [hangle]
    rw [h]
  · rw [statusText_append_setStatusText, hangle, h, quarterTurn_text]

/-- Witness of C10 on the sample environment whose transformation is
`{x=10, y=20, w=30, h=40, angle=π/2}`. -/
theorem onUpdateStatusBar_formats_transformation_witness :
    sampleEnvQuarterTurn.getTransformation = ⟨⟨10, 20, 30, 40⟩, halfPI⟩ ∧
    Double.div (Double.mul (Double.ofNat 180) halfPI) PI = Double.ofNat 90 ∧
    ∃ w : World, (onUpdateStatusBar sampleEnvQuarterTurn).run ⟨some 5, []⟩ = some (true, w) ∧
      w.calls = [.setStatusText 100 "Pos %d %d, Size %d %d, Angle %.1f"
        [.int 10, .int 20, .int 30, .int 40, .double (Double.ofNat 90)]] ∧
      statusText w.calls = some "Pos 10 20, Size 30 40, Angle 90.0" :=
  ⟨rfl,
    ((onUpdateStatusBar_formats_transformation sampleEnvQuarterTurn 5 []).2 rfl).1,
    ((onUpdateStatusBar_formats_transformation sampleEnvQuarterTurn 5 []).2 rfl).2⟩

end MovingPixels
